import Mathlib

/-!
Shallow embedding of the session-authentication core of the calibration
backend: the token codec (jsonwebtoken usage), the credential store
(Mongoose User model), the two authentication gates (the hardened
`requireAuth` in middleware/auth.js and the simplified `requireAuth` in
app.js), the role gate `requireRole`, and the auth endpoints
(signup, login, logout, me in routes/auth.js).

JavaScript strings that are tested for truthiness are modelled as Lean
strings where the empty string stands for a missing or falsy value.
JWT signing and verification are modelled symbolically: a token is either
a payload signed with the process secret (optionally expired, the expired
flag standing for the passage of the 24h validity window) or malformed;
`jwtVerify` succeeds exactly on an unexpired signed token.  Store calls
that may reject (Mongoose promises) return `Except Unit`, with fault
predicates on the store saying which lookups reject.
-/

namespace CalibrationBE

/-- An account record as stored by the Mongoose `User` model
(models/User.js): email (lowercased and trimmed by the schema), username,
bcrypt password hash, optional mobile, role, company reference. -/
structure Account where
  id : String
  email : String
  username : String
  passwordHash : String
  mobile : Option String
  role : String
  company : String
  deriving Repr, DecidableEq

/-- The safe projection of an account produced by
`.select(-passwordHash).lean()`: every stored field except the password
hash. -/
structure SafeAccount where
  id : String
  email : String
  username : String
  mobile : Option String
  role : String
  company : String
  deriving Repr, DecidableEq

/-- Drop the password hash, as `.select(-passwordHash)` does. -/
def Account.safe (a : Account) : SafeAccount :=
  { id := a.id, email := a.email, username := a.username,
    mobile := a.mobile, role := a.role, company := a.company }

/-- The claims embedded in a session token by login
(routes/auth.js line 60): `uid`, `role`, `username`. -/
structure Payload where
  uid : String
  role : String
  username : String
  deriving Repr, DecidableEq

/-- A session token: either a payload signed with the process secret
(with a flag recording whether its 24h validity window has elapsed), or a
malformed / forged string. -/
inductive Token where
  | signed (p : Payload) (expired : Bool)
  | malformed
  deriving Repr, DecidableEq

/-- `jwt.verify(token, SESSION_SECRET)` modelled as total: `some claims`
when the token is validly signed and unexpired, `none` standing for the
thrown verification error (malformed token, signature mismatch, or expiry
elapsed). -/
def jwtVerify : Token → Option Payload
  | Token.signed p false => some p
  | Token.signed _ true => none
  | Token.malformed => none

/-- `jwt.sign` for a fresh, unexpired token as issued at login. -/
def jwtSign (p : Payload) : Token := Token.signed p false

/-- The credential store: the persisted accounts plus fault predicates
recording which `findById` / `findOne` calls reject (store unavailable). -/
structure Store where
  accounts : List Account
  idFault : String → Bool
  emailFault : String → Bool

/-- `User.findById(uid)`: rejects when the store is unavailable for that
lookup, otherwise resolves to the first account with that id or none. -/
def Store.findById (s : Store) (uid : String) : Except Unit (Option Account) :=
  if s.idFault uid then Except.error ()
  else Except.ok (s.accounts.find? (fun a => a.id = uid))

/-- `User.findOne(email)`: rejects when the store is unavailable for that
lookup, otherwise resolves to the first account with that email or none. -/
def Store.findByEmail (s : Store) (email : String) : Except Unit (Option Account) :=
  if s.emailFault email then Except.error ()
  else Except.ok (s.accounts.find? (fun a => a.email = email))

/-- An error response: HTTP status and error message body. -/
structure ErrResponse where
  status : Nat
  error : String
  deriving Repr, DecidableEq

/-- Outcome of the hardened authentication gate: either a terminal failure
response (recording whether the branch cleared the session cookie) or
control passed on with the resolved principal attached to the request. -/
inductive AuthRes where
  | fail (status : Nat) (error : String) (cookieCleared : Bool)
  | ok (principal : SafeAccount)
  deriving Repr, DecidableEq

/-- The hardened authentication gate, middleware/auth.js `requireAuth`
(lines 11 to 46): extract the cookie, verify the token, check the uid
claim, re-resolve the account from the store excluding the password hash,
attach it; each failure short-circuits with 401, clearing the cookie in
every branch except the absent-cookie branch and the catch-all branch. -/
def requireAuth (db : Store) (cookie : Option Token) : AuthRes :=
  match cookie with
  | none => AuthRes.fail 401 "Not authenticated" false
  | some tok =>
    match jwtVerify tok with
    | none => AuthRes.fail 401 "Invalid or expired session" true
    | some payload =>
      if payload.uid = "" then AuthRes.fail 401 "Invalid session payload" true
      else
        match db.findById payload.uid with
        | Except.error _ => AuthRes.fail 401 "Authentication error" false
        | Except.ok none => AuthRes.fail 401 "Session user not found" true
        | Except.ok (some user) => AuthRes.ok user.safe

/-- The simplified authentication gate defined at top level in app.js
(lines 56 to 66): verifies the token and attaches the raw token payload as
`req.user`, without consulting the store and without clearing the cookie
on failure. -/
def appRequireAuth (cookie : Option Token) : Except ErrResponse Payload :=
  match cookie with
  | none => Except.error { status := 401, error := "Not authenticated" }
  | some tok =>
    match jwtVerify tok with
    | none => Except.error { status := 401, error := "Invalid or expired session" }
    | some payload => Except.ok payload

/-- The request-scoped `req.user` value the role gate inspects: the raw
token payload when attached by the app.js gate, the re-resolved safe
account when attached by the hardened gate. -/
inductive ReqUser where
  | fromToken (p : Payload)
  | fromDb (u : SafeAccount)
  deriving Repr, DecidableEq

/-- The `role` property read off `req.user` by the role gate. -/
def ReqUser.role : ReqUser → String
  | ReqUser.fromToken p => p.role
  | ReqUser.fromDb u => u.role

/-- The role gate, middleware/auth.js `requireRole` (lines 51 to 57):
401 when no `req.user` is attached, 403 when its role differs from the
required role, otherwise control proceeds (`none`). -/
def requireRole (required : String) (user : Option ReqUser) : Option ErrResponse :=
  match user with
  | none => some { status := 401, error := "Not authenticated" }
  | some u =>
    if u.role ≠ required then some { status := 403, error := "Forbidden" }
    else none

/-- Outcome of a gate pipeline in front of a protected handler. -/
inductive PipeRes where
  | fail (status : Nat) (error : String) (cookieCleared : Bool)
  | proceed (user : ReqUser)
  deriving Repr, DecidableEq

/-- The gate pipeline in front of every /users route: app.js line 78
mounts the router behind the simplified top-level `requireAuth`, and the
admin-only handlers in routes/users.js then run `requireRole (admin)` on
the attached raw token payload. -/
def usersAdminPipeline (cookie : Option Token) : PipeRes :=
  match appRequireAuth cookie with
  | Except.error e => PipeRes.fail e.status e.error false
  | Except.ok payload =>
    match requireRole "admin" (some (ReqUser.fromToken payload)) with
    | some e => PipeRes.fail e.status e.error false
    | none => PipeRes.proceed (ReqUser.fromToken payload)

/-- The gate pipeline in front of the admin-only product routes
(routes/products.js lines 121 and 165): hardened `requireAuth` then
`requireRole (admin)` on the re-resolved account. -/
def productsAdminPipeline (db : Store) (cookie : Option Token) : PipeRes :=
  match requireAuth db cookie with
  | AuthRes.fail s m c => PipeRes.fail s m c
  | AuthRes.ok u =>
    match requireRole "admin" (some (ReqUser.fromDb u)) with
    | some e => PipeRes.fail e.status e.error false
    | none => PipeRes.proceed (ReqUser.fromDb u)

/-- The attributes of the session cookie as built by `cookieOptions` in
routes/auth.js (lines 13 to 22). -/
structure CookieOpts where
  httpOnly : Bool
  secure : Bool
  sameSite : String
  maxAge : Nat
  path : String
  deriving Repr, DecidableEq

/-- routes/auth.js `cookieOptions`: httpOnly always, secure and
sameSite=None only when NODE_ENV is production (else Lax), the configured
max-age, root path. -/
def cookieOptions (isProd : Bool) (maxAge : Nat) : CookieOpts :=
  { httpOnly := true
    secure := isProd
    sameSite := if isProd then "None" else "Lax"
    maxAge := maxAge
    path := "/" }

/-- Whitespace as recognised by the schema trim setter. -/
def isWs (c : Char) : Bool :=
  c = ' ' ∨ c = '\t' ∨ c = '\n' ∨ c = '\r'

/-- The Mongoose lowercase and trim setters on the email path: strip
leading and trailing whitespace and lowercase the characters. -/
def normalizeEmail (s : String) : String :=
  String.mk (((s.data.dropWhile isWs).reverse.dropWhile isWs).reverse.map Char.toLower)

/-- The plain object handed to the Mongoose `User` constructor: the
fields the calling handler chose to pass. Absent fields are `none`. -/
structure UserDoc where
  email : String
  username : String
  passwordHash : String
  mobile : Option String
  role : Option String
  company : Option String
  deriving Repr, DecidableEq

/-- Mongoose `new User(doc)` followed by `save()` under the schema in
models/User.js: email is lowercased and trimmed by the schema setters;
email, username, passwordHash and company are required (a missing one
rejects the save with a validation error); role must be one of the enum
values `user` / `admin` and defaults to `user` when absent. `freshId` is
the ObjectId Mongo assigns to the new document. -/
def mkUser (freshId : String) (doc : UserDoc) : Except String Account :=
  let email := normalizeEmail doc.email
  let role := doc.role.getD "user"
  if email = "" then Except.error "ValidationError: email is required"
  else if doc.username = "" then Except.error "ValidationError: username is required"
  else if doc.passwordHash = "" then Except.error "ValidationError: passwordHash is required"
  else if role ≠ "user" ∧ role ≠ "admin" then Except.error "ValidationError: invalid role"
  else
    match doc.company with
    | none => Except.error "ValidationError: company is required"
    | some c =>
      Except.ok { id := freshId, email := email, username := doc.username,
                  passwordHash := doc.passwordHash, mobile := doc.mobile,
                  role := role, company := c }

/-- A signup request body. The handler destructures only email, username,
password and mobile; `role` records a role field a client may also have
sent, which the handler never reads. -/
structure SignupBody where
  email : String
  username : String
  password : String
  mobile : String
  role : Option String
  deriving Repr, DecidableEq

/-- The document the signup handler passes to the `User` constructor
(routes/auth.js line 36): email, username, the bcrypt hash of the
password, mobile — and nothing else: no role, no company. -/
def signupDoc (hashPw : String → String) (body : SignupBody) : UserDoc :=
  { email := body.email, username := body.username,
    passwordHash := hashPw body.password, mobile := some body.mobile,
    role := none, company := none }

/-- A create-user request body for the admin-gated POST /users handler
(routes/users.js). An absent role or mobile is the empty string. -/
structure UsersCreateBody where
  email : String
  username : String
  password : String
  role : String
  mobile : String
  deriving Repr, DecidableEq

/-- The document the admin-gated POST /users handler passes to the `User`
constructor (routes/users.js line 24): unlike signup it forwards the
client-chosen role, defaulting a falsy one to user. -/
def usersCreateDoc (hashPw : String → String) (b : UsersCreateBody) : UserDoc :=
  { email := b.email, username := b.username,
    passwordHash := hashPw b.password, mobile := some b.mobile,
    role := some (if b.role = "" then "user" else b.role), company := none }

/-- The safe projection returned by signup (routes/auth.js line 39). -/
structure SignupSafeUser where
  id : String
  email : String
  username : String
  role : String
  mobile : Option String
  deriving Repr, DecidableEq

/-- Result of POST /auth/signup. -/
inductive SignupRes where
  | badRequest (error : String)
  | created (user : SignupSafeUser)
  | serverError
  deriving Repr, DecidableEq

/-- POST /auth/signup (routes/auth.js lines 25 to 46): 400 when any of
email, username, password, mobile is falsy; 400 with a distinct message
when an account with that email already exists; otherwise bcrypt-hash the
password, save the new user, and return 201 with the safe projection; any
rejected store call surfaces as the 500 catch-all. -/
def signup (hashPw : String → String) (freshId : String) (db : Store)
    (body : SignupBody) : SignupRes :=
  if body.email = "" ∨ body.username = "" ∨ body.password = "" ∨ body.mobile = "" then
    SignupRes.badRequest "Missing fields"
  else
    match db.findByEmail body.email with
    | Except.error _ => SignupRes.serverError
    | Except.ok (some _) => SignupRes.badRequest "Email already in use"
    | Except.ok none =>
      match mkUser freshId (signupDoc hashPw body) with
      | Except.error _ => SignupRes.serverError
      | Except.ok u =>
        SignupRes.created { id := u.id, email := u.email, username := u.username,
                            role := u.role, mobile := u.mobile }

/-- The safe projection returned by login (routes/auth.js line 63). -/
structure LoginSafeUser where
  id : String
  email : String
  username : String
  role : String
  deriving Repr, DecidableEq

/-- Result of POST /auth/login: on success it carries the safe user, the
signed token written into the cookie, and the cookie attributes used. -/
inductive LoginRes where
  | badRequest (error : String)
  | unauthorized (error : String)
  | ok (user : LoginSafeUser) (cookieTok : Token) (opts : CookieOpts)
  | serverError
  deriving Repr, DecidableEq

/-- POST /auth/login (routes/auth.js lines 49 to 69): 400 when email or
password is falsy; 401 Invalid credentials when no account has that email;
401 Invalid credentials when bcrypt.compare fails; otherwise sign a token
embedding uid, current role and username, set the session cookie with
`cookieOptions`, and return the safe user. `cmp` is bcrypt.compare. -/
def login (cmp : String → String → Bool) (isProd : Bool) (maxAge : Nat)
    (db : Store) (email password : String) : LoginRes :=
  if email = "" ∨ password = "" then LoginRes.badRequest "Missing fields"
  else
    match db.findByEmail email with
    | Except.error _ => LoginRes.serverError
    | Except.ok none => LoginRes.unauthorized "Invalid credentials"
    | Except.ok (some user) =>
      if cmp password user.passwordHash then
        LoginRes.ok
          { id := user.id, email := user.email, username := user.username,
            role := user.role }
          (jwtSign { uid := user.id, role := user.role, username := user.username })
          (cookieOptions isProd maxAge)
      else LoginRes.unauthorized "Invalid credentials"

/-- The logout response body: status 200 and ok true. -/
structure LogoutRes where
  status : Nat
  ok : Bool
  deriving Repr, DecidableEq

/-- POST /auth/logout (app.js lines 50 to 53, identically routes/auth.js
lines 72 to 75): clear the cookie unconditionally and answer 200 ok.
The result pairs the response with the client cookie state afterwards. -/
def logoutHandler (_cookie : Option Token) : LogoutRes × Option Token :=
  ({ status := 200, ok := true }, none)

/-- Response of GET /auth/me: status, the user field of the body, and
whether the handler cleared the cookie. -/
structure MeRes where
  status : Nat
  user : Option SafeAccount
  cookieCleared : Bool
  deriving Repr, DecidableEq

/-- GET /auth/me (routes/auth.js lines 78 to 95): no cookie answers 200
with a null user; a token that fails verification lands in the catch
block, which clears the cookie and answers 200 with a null user; an
account not found for the uid clears the cookie and answers 200 with a
null user; a rejected store call also lands in the catch block; otherwise
200 with the safe account. -/
def authMe (db : Store) (cookie : Option Token) : MeRes :=
  match cookie with
  | none => { status := 200, user := none, cookieCleared := false }
  | some tok =>
    match jwtVerify tok with
    | none => { status := 200, user := none, cookieCleared := true }
    | some payload =>
      match db.findById payload.uid with
      | Except.error _ => { status := 200, user := none, cookieCleared := true }
      | Except.ok none => { status := 200, user := none, cookieCleared := true }
      | Except.ok (some u) => { status := 200, user := some u.safe, cookieCleared := false }

/-! Concrete fixtures used by witnesses and counterexample evaluations. -/

/-- An account whose stored role is admin. -/
def acctAlice : Account :=
  { id := "u1", email := "a@x.com", username := "alice", passwordHash := "HA",
    mobile := some "555", role := "admin", company := "c1" }

/-- An account whose stored role is user. -/
def acctBob : Account :=
  { id := "u2", email := "b@x.com", username := "bob", passwordHash := "HB",
    mobile := none, role := "user", company := "c1" }

/-- A healthy store holding the two fixture accounts. -/
def storeA : Store :=
  { accounts := [acctAlice, acctBob], idFault := fun _ => false,
    emailFault := fun _ => false }

/-- An empty healthy store. -/
def storeEmpty : Store :=
  { accounts := [], idFault := fun _ => false, emailFault := fun _ => false }

/-- A store whose findById calls all reject (store unavailable). -/
def storeIdDown : Store :=
  { accounts := [acctAlice, acctBob], idFault := fun _ => true,
    emailFault := fun _ => false }

/-- A valid, unexpired token for Alice carrying the stale role claim
`user`, issued before her account role was changed to admin. -/
def tokStaleAlice : Token :=
  Token.signed { uid := "u1", role := "user", username := "alice" } false

/-- An expired token for Alice. -/
def tokExpiredAlice : Token :=
  Token.signed { uid := "u1", role := "user", username := "alice" } true

/-- A user document that carries a company reference and no role. -/
def docCarol : UserDoc :=
  { email := "c@x.com", username := "carol", passwordHash := "HC",
    mobile := none, role := none, company := some "c1" }

/-- The account `mkUser` builds from `docCarol`. -/
def acctCarol : Account :=
  { id := "u3", email := "c@x.com", username := "carol", passwordHash := "HC",
    mobile := none, role := "user", company := "c1" }

/-! Claim theorems. -/

/-- C2: the hardened authentication gate evaluates Extract, Verify,
Claim-shape-check, Resolve, Attach in strict order; an absent cookie
fails 401 Not authenticated without clearing the cookie; an invalid or
expired token fails 401 and clears the cookie; a verified payload with an
empty uid fails 401 and clears the cookie; an account not found for the
uid fails 401 (not a server fault) and clears the cookie; otherwise the
account minus the password hash is attached and control proceeds. -/
theorem requireAuth_gate_contract (db : Store) (tok : Token) (p : Payload) (u : Account) :
    (requireAuth db none = AuthRes.fail 401 "Not authenticated" false)
    ∧ (jwtVerify tok = none →
        requireAuth db (some tok) = AuthRes.fail 401 "Invalid or expired session" true)
    ∧ (jwtVerify tok = some p → p.uid = "" →
        requireAuth db (some tok) = AuthRes.fail 401 "Invalid session payload" true)
    ∧ (jwtVerify tok = some p → p.uid ≠ "" → db.findById p.uid = Except.ok none →
        requireAuth db (some tok) = AuthRes.fail 401 "Session user not found" true)
    ∧ (jwtVerify tok = some p → p.uid ≠ "" → db.findById p.uid = Except.ok (some u) →
        requireAuth db (some tok) = AuthRes.ok u.safe) := by
  refine ⟨rfl, fun hv => ?_, fun hv h0 => ?_, fun hv h0 hdb => ?_, fun hv h0 hdb => ?_⟩
  · simp [requireAuth, hv]
  · simp [requireAuth, hv, h0]
  · simp [requireAuth, hv, h0, hdb]
  · simp [requireAuth, hv, h0, hdb]

/-- Witness for C2: on the fixture store, an expired token is rejected
with the cookie cleared, and a valid token for Alice attaches her safe
projection. -/
theorem requireAuth_gate_contract_witness :
    requireAuth storeA (some tokExpiredAlice)
      = AuthRes.fail 401 "Invalid or expired session" true
    ∧ requireAuth storeA (some tokStaleAlice) = AuthRes.ok acctAlice.safe :=
  ⟨(requireAuth_gate_contract storeA tokExpiredAlice
      { uid := "u1", role := "user", username := "alice" } acctAlice).2.1 rfl,
   (requireAuth_gate_contract storeA tokStaleAlice
      { uid := "u1", role := "user", username := "alice" } acctAlice).2.2.2.2 rfl
      (by decide) rfl⟩

/-- C4: when the store lookup rejects (store unavailable), the hardened
gate catches the fault and answers with the generic 401 Authentication
error, a message distinct from every session-invalidity message, and does
not clear the cookie. -/
theorem requireAuth_fault_branch (db : Store) (tok : Token) (p : Payload)
    (hv : jwtVerify tok = some p) (h0 : p.uid ≠ "")
    (hf : db.findById p.uid = Except.error ()) :
    requireAuth db (some tok) = AuthRes.fail 401 "Authentication error" false
    ∧ "Authentication error" ∉
        ["Not authenticated", "Invalid or expired session",
         "Invalid session payload", "Session user not found"] := by
  refine ⟨?_, by decide⟩
  simp [requireAuth, hv, h0, hf]

/-- Witness for C4: on the store whose id lookups reject, a valid token
yields the generic authentication error without clearing the cookie. -/
theorem requireAuth_fault_branch_witness :
    requireAuth storeIdDown (some tokStaleAlice)
      = AuthRes.fail 401 "Authentication error" false :=
  (requireAuth_fault_branch storeIdDown tokStaleAlice
    { uid := "u1", role := "user", username := "alice" } rfl (by decide) rfl).1

/-- C5: the role gate answers 401 when no principal is attached, 403 when
the attached principal carries a role different from the required one,
and passes control exactly on equality; no hierarchy among roles. -/
theorem requireRole_contract (r : String) (user : Option ReqUser) (u : ReqUser) :
    (user = none → requireRole r user = some { status := 401, error := "Not authenticated" })
    ∧ (user = some u → u.role ≠ r → requireRole r user = some { status := 403, error := "Forbidden" })
    ∧ (user = some u → u.role = r → requireRole r user = none) := by
  refine ⟨fun h => ?_, fun h hne => ?_, fun h he => ?_⟩ <;> subst h <;> simp [requireRole, *]

/-- Witness for C5: the admin account does not satisfy a required role of
user (no hierarchy), an absent principal is 401, and an exact match
proceeds. -/
theorem requireRole_contract_witness :
    requireRole "user" (some (ReqUser.fromDb acctAlice.safe))
      = some { status := 403, error := "Forbidden" }
    ∧ requireRole "admin" none = some { status := 401, error := "Not authenticated" }
    ∧ requireRole "admin" (some (ReqUser.fromDb acctAlice.safe)) = none :=
  ⟨(requireRole_contract "user" _ (ReqUser.fromDb acctAlice.safe)).2.1 rfl (by decide),
   (requireRole_contract "admin" none (ReqUser.fromDb acctAlice.safe)).1 rfl,
   (requireRole_contract "admin" _ (ReqUser.fromDb acctAlice.safe)).2.2 rfl (by decide)⟩

/-- C1: evaluation at the failing input. Alice's stored role is admin but
her still-valid token carries the stale role claim user. The admin-only
/users routes sit behind the simplified top-level gate of app.js, which
attaches the raw token payload, so the role gate reads the stale claim
and rejects the request 403 — the claim says it succeeds. The hardened
pipeline used by the admin-only product routes re-resolves the role from
the store on the same state and proceeds. -/
theorem usersAdminPipeline_trusts_stale_role_claim :
    usersAdminPipeline (some tokStaleAlice) = PipeRes.fail 403 "Forbidden" false
    ∧ productsAdminPipeline storeA (some tokStaleAlice)
        = PipeRes.proceed (ReqUser.fromDb acctAlice.safe) := by
  exact ⟨rfl, rfl⟩

/-- C3: a login with an email unknown to the store and a login with a
known email but a password that bcrypt.compare rejects produce the same
response: 401 with the message Invalid credentials. -/
theorem login_anti_enumeration (cmp : String → String → Bool) (isProd : Bool)
    (maxAge : Nat) (db : Store) (e1 p1 e2 p2 : String) (u : Account)
    (h1 : e1 ≠ "") (h2 : p1 ≠ "") (h3 : e2 ≠ "") (h4 : p2 ≠ "")
    (h5 : db.findByEmail e1 = Except.ok none)
    (h6 : db.findByEmail e2 = Except.ok (some u))
    (h7 : cmp p2 u.passwordHash = false) :
    login cmp isProd maxAge db e1 p1 = LoginRes.unauthorized "Invalid credentials"
    ∧ login cmp isProd maxAge db e2 p2 = login cmp isProd maxAge db e1 p1 := by
  have hA : login cmp isProd maxAge db e1 p1
      = LoginRes.unauthorized "Invalid credentials" := by
    simp [login, h1, h2, h5]
  have hB : login cmp isProd maxAge db e2 p2
      = LoginRes.unauthorized "Invalid credentials" := by
    simp [login, h3, h4, h6, h7]
  exact ⟨hA, by rw [hA, hB]⟩

/-- Witness for C3: on the fixture store, an unknown email and a known
email with a rejected password give identical 401 responses. -/
theorem login_anti_enumeration_witness :
    login (fun _ _ => false) false 1000 storeA "nobody@x.com" "pw"
      = LoginRes.unauthorized "Invalid credentials"
    ∧ login (fun _ _ => false) false 1000 storeA "a@x.com" "pw"
      = login (fun _ _ => false) false 1000 storeA "nobody@x.com" "pw" :=
  login_anti_enumeration (fun _ _ => false) false 1000 storeA
    "nobody@x.com" "pw" "a@x.com" "pw" acctAlice
    (by decide) (by decide) (by decide) (by decide) rfl rfl rfl

/-- C6: GET /auth/me always answers status 200; an absent cookie, a token
failing verification, and an account not found for the uid each yield a
null user rather than an error status. -/
theorem authMe_always_success (db : Store) (cookie : Option Token)
    (tok : Token) (p : Payload) :
    ((authMe db cookie).status = 200)
    ∧ (cookie = none →
        authMe db cookie = { status := 200, user := none, cookieCleared := false })
    ∧ (cookie = some tok → jwtVerify tok = none →
        authMe db cookie = { status := 200, user := none, cookieCleared := true })
    ∧ (cookie = some tok → jwtVerify tok = some p → db.findById p.uid = Except.ok none →
        authMe db cookie = { status := 200, user := none, cookieCleared := true }) := by
  refine ⟨?_, fun h => ?_, fun h hv => ?_, fun h hv hdb => ?_⟩
  · unfold authMe
    split
    · rfl
    · split
      · rfl
      · split <;> rfl
  · subst h; rfl
  · subst h; simp [authMe, hv]
  · subst h; simp [authMe, hv, hdb]

/-- Witness for C6: on concrete stores, the absent-cookie, expired-token
and deleted-account cases each answer 200 with a null user. -/
theorem authMe_always_success_witness :
    authMe storeA none = { status := 200, user := none, cookieCleared := false }
    ∧ authMe storeA (some tokExpiredAlice)
        = { status := 200, user := none, cookieCleared := true }
    ∧ authMe storeEmpty (some tokStaleAlice)
        = { status := 200, user := none, cookieCleared := true } :=
  ⟨(authMe_always_success storeA none tokExpiredAlice
      { uid := "u1", role := "user", username := "alice" }).2.1 rfl,
   (authMe_always_success storeA (some tokExpiredAlice) tokExpiredAlice
      { uid := "u1", role := "user", username := "alice" }).2.2.1 rfl rfl,
   (authMe_always_success storeEmpty (some tokStaleAlice) tokStaleAlice
      { uid := "u1", role := "user", username := "alice" }).2.2.2 rfl rfl rfl⟩

/-- C8: logout answers 200 ok and clears the cookie for every incoming
cookie state, and it is idempotent: running it again on the cookie state
it produced gives the same response and the same cookie state. -/
theorem logout_unconditional_idempotent (c : Option Token) :
    (logoutHandler c).1 = { status := 200, ok := true }
    ∧ (logoutHandler c).2 = none
    ∧ logoutHandler ((logoutHandler c).2) = logoutHandler c :=
  ⟨rfl, rfl, rfl⟩

/-- C9: whenever login succeeds and writes the session cookie, the cookie
attributes are httpOnly, secure exactly in production, sameSite None in
production and Lax otherwise, the configured max-age, and root path. -/
theorem login_cookie_attributes (cmp : String → String → Bool) (isProd : Bool)
    (maxAge : Nat) (db : Store) (email password : String)
    (u : LoginSafeUser) (tok : Token) (opts : CookieOpts)
    (h : login cmp isProd maxAge db email password = LoginRes.ok u tok opts) :
    opts.httpOnly = true ∧ opts.secure = isProd
    ∧ opts.sameSite = (if isProd then "None" else "Lax")
    ∧ opts.maxAge = maxAge ∧ opts.path = "/" := by
  unfold login at h
  split at h
  · simp at h
  · split at h
    · simp at h
    · simp at h
    · split at h
      · obtain ⟨hu, ht, ho⟩ := LoginRes.ok.inj h
        subst ho
        simp [cookieOptions]
      · simp at h

/-- Witness for C9: a concrete successful login in a non-production
environment writes the cookie with the claimed attributes. -/
theorem login_cookie_attributes_witness :
    (cookieOptions false 1000).httpOnly = true
    ∧ (cookieOptions false 1000).secure = false
    ∧ (cookieOptions false 1000).sameSite = (if false then "None" else "Lax")
    ∧ (cookieOptions false 1000).maxAge = 1000
    ∧ (cookieOptions false 1000).path = "/" :=
  login_cookie_attributes (fun _ _ => true) false 1000 storeA "a@x.com" "pw"
    { id := "u1", email := "a@x.com", username := "alice", role := "admin" }
    (jwtSign { uid := "u1", role := "admin", username := "alice" })
    (cookieOptions false 1000) rfl

/-- Helper: `mkUser` rejects every document that carries no company
reference, because the schema marks company as required. -/
theorem mkUser_requires_company (freshId : String) (doc : UserDoc)
    (h : doc.company = none) : ∃ m, mkUser freshId doc = Except.error m := by
  simp only [mkUser]
  split
  · exact ⟨_, rfl⟩
  · split
    · exact ⟨_, rfl⟩
    · split
      · exact ⟨_, rfl⟩
      · split
        · exact ⟨_, rfl⟩
        · rw [h]
          exact ⟨_, rfl⟩

/-- Helper: an account that `mkUser` accepts carries the role of the
document, defaulted to user when the document has none. -/
theorem mkUser_ok_role (freshId : String) (doc : UserDoc) (u : Account)
    (hmk : mkUser freshId doc = Except.ok u) : u.role = doc.role.getD "user" := by
  simp only [mkUser] at hmk
  split at hmk
  · simp at hmk
  · split at hmk
    · simp at hmk
    · split at hmk
      · simp at hmk
      · split at hmk
        · simp at hmk
        · split at hmk
          · simp at hmk
          · obtain h := Except.ok.inj hmk
            subst h
            rfl

/-- C7: evaluation of the failing path. For every signup body with all
four fields present and an email unknown to the store, the handler builds
a document with no company reference, the schema rejects the save because
company is required, and the catch-all answers 500 Server error — the
claim says 201 with the safe projection. -/
theorem signup_store_rejects (hashPw : String → String) (freshId : String)
    (db : Store) (body : SignupBody)
    (h1 : body.email ≠ "") (h2 : body.username ≠ "") (h3 : body.password ≠ "")
    (h4 : body.mobile ≠ "") (h5 : db.findByEmail body.email = Except.ok none) :
    signup hashPw freshId db body = SignupRes.serverError := by
  obtain ⟨m, hm⟩ := mkUser_requires_company freshId (signupDoc hashPw body) rfl
  simp [signup, h1, h2, h3, h4, h5, hm]

/-- Witness for C7: the concrete valid signup of the spec scenario
against the empty store answers 500. -/
theorem signup_store_rejects_witness :
    signup (fun _ => "HASH") "id1" storeEmpty
      { email := "a@x.com", username := "alice", password := "pw123",
        mobile := "555", role := none } = SignupRes.serverError :=
  signup_store_rejects (fun _ => "HASH") "id1" storeEmpty
    { email := "a@x.com", username := "alice", password := "pw123",
      mobile := "555", role := none }
    (by decide) (by decide) (by decide) (by decide) rfl

/-- C10: the signup handler passes no role to the store whatever the
request body contains, the store gives a roleless document the role user,
and the admin-gated POST /users handler is the one that forwards a
client-chosen role explicitly. -/
theorem signup_role_defaults_to_user (hashPw : String → String)
    (body : SignupBody) (freshId : String) (doc : UserDoc) (u : Account)
    (b : UsersCreateBody) :
    (signupDoc hashPw body).role = none
    ∧ (mkUser freshId doc = Except.ok u → doc.role = none → u.role = "user")
    ∧ (b.role ≠ "" → (usersCreateDoc hashPw b).role = some b.role) := by
  refine ⟨rfl, fun hmk hrole => ?_, fun hb => ?_⟩
  · rw [mkUser_ok_role freshId doc u hmk, hrole]
    rfl
  · simp [usersCreateDoc, hb]

/-- Witness for C10: a signup body that smuggles a role claim of admin
still yields a roleless document; the store turns the roleless document
for Carol into an account with role user; the admin-gated handler
forwards an explicit admin role. -/
theorem signup_role_defaults_to_user_witness :
    (signupDoc (fun _ => "HASH")
      { email := "a@x.com", username := "alice", password := "pw",
        mobile := "5", role := some "admin" }).role = none
    ∧ acctCarol.role = "user"
    ∧ (usersCreateDoc (fun _ => "HASH")
        { email := "d@x.com", username := "dan", password := "pw",
          role := "admin", mobile := "7" }).role = some "admin" :=
  ⟨(signup_role_defaults_to_user (fun _ => "HASH")
      { email := "a@x.com", username := "alice", password := "pw",
        mobile := "5", role := some "admin" }
      "u3" docCarol acctCarol
      { email := "d@x.com", username := "dan", password := "pw",
        role := "admin", mobile := "7" }).1,
   (signup_role_defaults_to_user (fun _ => "HASH")
      { email := "a@x.com", username := "alice", password := "pw",
        mobile := "5", role := some "admin" }
      "u3" docCarol acctCarol
      { email := "d@x.com", username := "dan", password := "pw",
        role := "admin", mobile := "7" }).2.1 rfl rfl,
   (signup_role_defaults_to_user (fun _ => "HASH")
      { email := "a@x.com", username := "alice", password := "pw",
        mobile := "5", role := some "admin" }
      "u3" docCarol acctCarol
      { email := "d@x.com", username := "dan", password := "pw",
        role := "admin", mobile := "7" }).2.2 (by decide)⟩

end CalibrationBE
